import Mathlib

/-!
Verification of the agent control loop of `react-agent-with-tools`
(src/agent/graph.py, src/agent/utils.py, src/agent/config.py).

Messages are modelled as a tagged variant over the LangChain message classes
used by the code: `SystemMessage`, `HumanMessage`, `AIMessage` (with its
`tool_calls` list and the legacy `function_call` entry of `additional_kwargs`),
`ToolMessage` (with its `tool_call_id`) and `FunctionMessage` (with its `name`).
Text content is a `String`; tool-argument mappings are association lists from
`String` to `String`.
-/

namespace Agent

/-- `ToolCallRequest {id, name, arguments}` as produced in an `AIMessage`'s
`tool_calls` list. -/
structure ToolCallRequest where
  id : String
  name : String
  args : List (String × String)
deriving DecidableEq, Repr

/-- The legacy `function_call` entry of `additional_kwargs`: a tool name and an
encoded-text argument blob (a JSON string in the real system). -/
structure FunctionCall where
  name : String
  arguments : String
deriving DecidableEq, Repr

/-- The tagged message variant. Only `assistant` messages carry a `tool_calls`
attribute or a legacy `function_call` entry (`getattr` on the other classes
yields the default). -/
inductive Message where
  | system (content : String)
  | user (content : String)
  | assistant (content : String) (tool_calls : List ToolCallRequest)
      (function_call : Option FunctionCall)
  | tool (content : String) (tool_call_id : String)
  | function (content : String) (name : String)
deriving DecidableEq, Repr

/-- `getattr(message, "content", "")`. -/
def Message.content : Message → String
  | .system c => c
  | .user c => c
  | .assistant c _ _ => c
  | .tool c _ => c
  | .function c _ => c

/-- Replace the `content` attribute of a message, keeping every other
attribute (models `new_message = copy(message); new_message.content = ...`). -/
def Message.withContent : Message → String → Message
  | .system _, c => .system c
  | .user _, c => .user c
  | .assistant _ tcs fc, c => .assistant c tcs fc
  | .tool _ i, c => .tool c i
  | .function _ n, c => .function c n

/-- `isinstance(message, SystemMessage)`. -/
def is_system : Message → Bool
  | .system _ => true
  | _ => false

/-- `isinstance(message, HumanMessage)`. -/
def is_user : Message → Bool
  | .user _ => true
  | _ => false

/-- `getattr(message, "tool_calls", None)` of an `AIMessage`, as an option. -/
def tool_calls_of : Message → List ToolCallRequest
  | .assistant _ tcs _ => tcs
  | _ => []

/-- `additional_kwargs.get("function_call")`. -/
def function_call_of : Message → Option FunctionCall
  | .assistant _ _ fc => fc
  | _ => none

/-- `message_has_tool_calls` (utils.py lines 34-38): `bool(tool_calls)` of
`getattr(message, "tool_calls", None)` — true only for an assistant message
with a non-empty `tool_calls` list. -/
def message_has_tool_calls (message : Message) : Bool :=
  !(tool_calls_of message).isEmpty

/-- `is_tool_response` (utils.py lines 41-43): `isinstance(message, ToolMessage)`.
Note a legacy `FunctionMessage` is not a `ToolMessage`. -/
def is_tool_response : Message → Bool
  | .tool _ _ => true
  | _ => false

/-- The Python slice `messages[-look_back:]` for a natural `look_back`.
For `look_back = 0` the negative index `-0` is `0`, so the slice is the whole
list, not the last zero elements. -/
def pySliceLast (look_back : Nat) (messages : List Message) : List Message :=
  if look_back = 0 then messages else messages.drop (messages.length - look_back)

/-- The accumulated counter of the `for msg in reversed(recent_messages)` loop
of `has_too_many_consecutive_tool_calls`, applied to the already-reversed
list: a tool-call-bearing message counts, a tool response is skipped, and any
other message breaks the loop. -/
def consecutive_count : List Message → Nat
  | [] => 0
  | m :: rest =>
    if message_has_tool_calls m then consecutive_count rest + 1
    else if is_tool_response m then consecutive_count rest
    else 0

/-- `has_too_many_consecutive_tool_calls` (utils.py lines 13-31). The Python
defaults are `max_calls = 3`, `look_back = 10`; callers inside the repository
pass no explicit values. -/
def has_too_many_consecutive_tool_calls (messages : List Message)
    (max_calls : Nat) (look_back : Nat) : Bool :=
  let recent_messages :=
    if messages.length > look_back then pySliceLast look_back messages
    else messages
  decide (max_calls ≤ consecutive_count recent_messages.reverse)

/-- The guard as the specification words it (§4.2): examine only the last
`look_back` messages, scan from most recent backward, count the run of
tool-call-bearing messages skipping tool responses, stop at the first other
message. -/
def specConsecutiveCount (look_back : Nat) (messages : List Message) : Nat :=
  let window := messages.drop (messages.length - look_back)
  ((window.reverse.takeWhile
      (fun m => message_has_tool_calls m || is_tool_response m)).filter
    message_has_tool_calls).length

/-- The specification's guard verdict: true iff the counted run reaches
`max_calls`. -/
def specGuard (max_calls look_back : Nat) (messages : List Message) : Bool :=
  decide (max_calls ≤ specConsecutiveCount look_back messages)

/-- The loop counter equals the run-then-filter count of the specification. -/
theorem consecutive_count_eq_takeWhile (l : List Message) :
    consecutive_count l =
      ((l.takeWhile (fun m => message_has_tool_calls m || is_tool_response m)).filter
        message_has_tool_calls).length := by
  induction l with
  | nil => rfl
  | cons m rest ih =>
    by_cases htc : message_has_tool_calls m = true
    · simp [consecutive_count, htc, List.takeWhile, List.filter, ih]
    · by_cases hresp : is_tool_response m = true
      · simp [consecutive_count, htc, hresp, List.takeWhile, List.filter, ih]
      · simp [consecutive_count, htc, hresp, List.takeWhile]

/-- For a positive window the code's window is exactly the last `look_back`
messages. -/
theorem recent_window_eq (messages : List Message) (look_back : Nat)
    (hlb : 1 ≤ look_back) :
    (if messages.length > look_back then pySliceLast look_back messages
     else messages) =
      messages.drop (messages.length - look_back) := by
  by_cases h : messages.length > look_back
  · have hne : look_back ≠ 0 := by omega
    simp [h, pySliceLast, hne]
  · have hle : messages.length - look_back = 0 := by omega
    simp [h, hle]

/-- The module-level `SYSTEM_MESSAGE` constant of graph.py (lines 21-24). -/
def SYSTEM_MESSAGE : Message :=
  .system "You are a helpful assistant that can search the web and academic papers to answer questions. You can use tools like Brave Search and ArXiv Search to find information. If you need to use a tool, you will call it with the appropriate arguments. If you cannot find an answer, you will say 'I don't know'."

/-- `not messages or not isinstance(messages[0], SystemMessage)` is false,
i.e. the history is non-empty and starts with a `SystemMessage`. -/
def first_is_system : List Message → Bool
  | [] => false
  | m :: _ => is_system m

/-- graph.py lines 44-46: prepend `SYSTEM_MESSAGE` when the history is empty
or does not start with a `SystemMessage`. -/
def ensure_system_first (messages : List Message) : List Message :=
  if first_is_system messages then messages else SYSTEM_MESSAGE :: messages

/-- The whitespace characters removed by Python's `str.strip()` (the ASCII
ones; the conversation contents in play are ASCII). -/
def isPyWhitespace (c : Char) : Bool :=
  c == ' ' || c == '\t' || c == '\n' || c == '\r' || c == '\x0b' || c == '\x0c'

/-- Python's `str.strip()`: remove leading and trailing whitespace. -/
def pyStrip (s : String) : String :=
  String.mk (((s.data.dropWhile isPyWhitespace).reverse.dropWhile
    isPyWhitespace).reverse)

/-- The emptiness test of graph.py line 54:
`not content or (isinstance(content, str) and not content.strip())`. -/
def is_empty_content (content : String) : Bool :=
  content = "" || pyStrip content = ""

/-- One iteration of the sanitation loop of `agent_node` (graph.py lines
50-67): an empty-or-whitespace message is replaced by a copy whose content is
"Completed" for `ToolMessage`/`FunctionMessage`, is kept as is for
`SystemMessage`, and is "..." otherwise; non-empty messages pass through. -/
def sanitize_message (m : Message) : Message :=
  if is_empty_content m.content then
    match m with
    | .tool _ _ => m.withContent "Completed"
    | .function _ _ => m.withContent "Completed"
    | .system _ => m
    | _ => m.withContent "..."
  else m

/-- The full sanitation performed by `agent_node` before the model call
(graph.py lines 44-67): ensure a leading system message, then normalize each
message's content. Pure: the input list is never mutated. -/
def agent_node_sanitize (messages : List Message) : List Message :=
  (ensure_system_first messages).map sanitize_message

/-- C2: for every positive `look_back` the loop guard returns true iff the
count of the specification's backward scan over the last `look_back` messages
reaches `max_calls`; in particular a window with fewer than `max_calls`
qualifying tool-call messages (including the empty history) yields false.
Amended: the equivalence is stated for `look_back ≥ 1` — at `look_back = 0`
the Python slice `messages[-0:]` is the whole history, so the code scans
every message instead of the last zero (see the counterexample). -/
theorem has_too_many_iff_specGuard (messages : List Message)
    (max_calls look_back : Nat) (hlb : 1 ≤ look_back) :
    (has_too_many_consecutive_tool_calls messages max_calls look_back = true ↔
      max_calls ≤ specConsecutiveCount look_back messages) ∧
    (specConsecutiveCount look_back messages < max_calls →
      has_too_many_consecutive_tool_calls messages max_calls look_back = false) := by
  have hwin := recent_window_eq messages look_back hlb
  have hmain : has_too_many_consecutive_tool_calls messages max_calls look_back =
      specGuard max_calls look_back messages := by
    simp only [has_too_many_consecutive_tool_calls, specGuard, specConsecutiveCount,
      hwin, consecutive_count_eq_takeWhile]
  constructor
  · rw [hmain]
    simp [specGuard]
  · intro hlt
    rw [hmain]
    simp only [specGuard, decide_eq_false_iff_not]
    omega

/-- Witness for C2 at a concrete history: guard over
`[user, assistant(tool_calls), tool]` with `max_calls = 1`, `look_back = 10`. -/
theorem has_too_many_iff_specGuard_witness :
    (1 : Nat) ≤ 10 ∧
    (has_too_many_consecutive_tool_calls
        [Message.user "q",
         Message.assistant "c" [⟨"1", "t", []⟩] none,
         Message.tool "r" "1"] 1 10 = true ↔
      1 ≤ specConsecutiveCount 10
        [Message.user "q",
         Message.assistant "c" [⟨"1", "t", []⟩] none,
         Message.tool "r" "1"]) :=
  ⟨by decide,
   (has_too_many_iff_specGuard
      [Message.user "q",
       Message.assistant "c" [⟨"1", "t", []⟩] none,
       Message.tool "r" "1"] 1 10 (by decide)).1⟩

/-- C2 counterexample: at `look_back = 0` the claim fails. The history is a
single tool-call-bearing assistant message and `max_calls = 1`: the last zero
messages contain no qualifying message, so the claimed scan never reaches the
threshold, yet the code returns true because `messages[-0:]` is the whole
history. -/
theorem has_too_many_lookback_zero_counterexample :
    has_too_many_consecutive_tool_calls
        [Message.assistant "c" [⟨"1", "t", []⟩] none] 1 0 = true ∧
    ¬ (1 ≤ specConsecutiveCount 0
        [Message.assistant "c" [⟨"1", "t", []⟩] none]) := by
  constructor
  · decide
  · decide

/-- `sanitize_message` never changes which variant a message is; in particular
it neither adds nor removes user messages. -/
theorem is_user_sanitize_message (m : Message) :
    is_user (sanitize_message m) = is_user m := by
  cases m <;> simp only [sanitize_message] <;> split <;> rfl

/-- The default system message has non-empty content, so it passes the
sanitation loop unchanged. -/
theorem sanitize_message_SYSTEM_MESSAGE :
    sanitize_message SYSTEM_MESSAGE = SYSTEM_MESSAGE := by
  simp [SYSTEM_MESSAGE, sanitize_message]

/-- A history whose members all have non-empty content maps to itself. -/
theorem map_sanitize_message_of_nonempty (l : List Message)
    (h : ∀ m ∈ l, is_empty_content m.content = false) :
    l.map sanitize_message = l := by
  induction l with
  | nil => rfl
  | cons m rest ih =>
    have hm : sanitize_message m = m := by
      simp [sanitize_message, h m (List.mem_cons_self m rest)]
    simp only [List.map_cons, hm, List.cons.injEq, true_and]
    exact ih (fun x hx => h x (List.mem_cons_of_mem m hx))

/-- C3 (amended): sanitization appends no placeholder User message. The number
of user messages is preserved by `agent_node_sanitize`, and a history of
exactly one System message — empty or not — is returned as that single System
message, with no `User("Hello")` appended. -/
theorem sanitize_appends_no_user :
    (∀ messages : List Message,
        (agent_node_sanitize messages).countP is_user =
          messages.countP is_user) ∧
    (∀ c : String, agent_node_sanitize [Message.system c] = [Message.system c]) := by
  constructor
  · intro messages
    have h1 : (agent_node_sanitize messages).countP is_user =
        (ensure_system_first messages).countP is_user := by
      simp [agent_node_sanitize, List.countP_map, Function.comp_def,
        is_user_sanitize_message]
    rw [h1]
    by_cases h : first_is_system messages = true
    · simp [ensure_system_first, h]
    · simp only [ensure_system_first, h, if_neg, Bool.not_eq_true, if_false]
      simp [List.countP_cons, SYSTEM_MESSAGE, is_user]
  · intro c
    simp [agent_node_sanitize, ensure_system_first, first_is_system, is_system,
      sanitize_message]

/-- C3 counterexample: sanitizing a history of exactly one empty System
message yields `[System("")]` — no placeholder `User("Hello")` is ever
appended, contradicting the claimed result `[System(unchanged), User("Hello")]`. -/
theorem sanitize_empty_system_counterexample :
    agent_node_sanitize [Message.system ""] = [Message.system ""] ∧
    agent_node_sanitize [Message.system ""] ≠
      [Message.system "", Message.user "Hello"] := by
  constructor
  · decide
  · decide

/-- C4: `agent_node`'s sanitation (graph.py lines 44-67): (a) the default
system message is prepended exactly when the history does not start with a
System message; (c) a `ToolMessage`/`FunctionMessage` with empty or
whitespace-only content becomes a copy with content "Completed", a System
message is passed through unchanged even when empty, any other empty message
becomes a copy with content "...", and in each case no field other than
`content` changes (the constructor equations keep `tool_call_id`, `name`,
`tool_calls` and `function_call` intact); a message with non-empty content is
returned unchanged; and a System-first history of non-empty messages is
returned unchanged. The transformation is a pure function of the input list. -/
theorem agent_node_sanitize_spec :
    (∀ messages : List Message, first_is_system messages = false →
        agent_node_sanitize messages =
          SYSTEM_MESSAGE :: messages.map sanitize_message) ∧
    (∀ c i, sanitize_message (Message.tool c i) =
        Message.tool (if is_empty_content c then "Completed" else c) i) ∧
    (∀ c n, sanitize_message (Message.function c n) =
        Message.function (if is_empty_content c then "Completed" else c) n) ∧
    (∀ c, sanitize_message (Message.system c) = Message.system c) ∧
    (∀ c, sanitize_message (Message.user c) =
        Message.user (if is_empty_content c then "..." else c)) ∧
    (∀ c tcs fc, sanitize_message (Message.assistant c tcs fc) =
        Message.assistant (if is_empty_content c then "..." else c) tcs fc) ∧
    (∀ m : Message, is_empty_content m.content = false → sanitize_message m = m) ∧
    (∀ messages : List Message, first_is_system messages = true →
        (∀ m ∈ messages, is_empty_content m.content = false) →
        agent_node_sanitize messages = messages) := by
  refine ⟨?_, ?_, ?_, ?_, ?_, ?_, ?_, ?_⟩
  · intro messages h
    simp [agent_node_sanitize, ensure_system_first, h,
      sanitize_message_SYSTEM_MESSAGE]
  · intro c i
    cases h : is_empty_content c <;>
      simp [sanitize_message, Message.withContent, Message.content, h]
  · intro c n
    cases h : is_empty_content c <;>
      simp [sanitize_message, Message.withContent, Message.content, h]
  · intro c
    simp [sanitize_message]
  · intro c
    cases h : is_empty_content c <;>
      simp [sanitize_message, Message.withContent, Message.content, h]
  · intro c tcs fc
    cases h : is_empty_content c <;>
      simp [sanitize_message, Message.withContent, Message.content, h]
  · intro m h
    simp [sanitize_message, h]
  · intro messages h hall
    simp [agent_node_sanitize, ensure_system_first, h,
      map_sanitize_message_of_nonempty messages hall]

/-- Witness for C4: the prepending clause at `[User("q")]`, the pass-through
clause at `User("hi")`, and the unchanged System-first User-second history. -/
theorem agent_node_sanitize_spec_witness :
    agent_node_sanitize [Message.user "q"] =
      SYSTEM_MESSAGE :: [Message.user "q"].map sanitize_message ∧
    sanitize_message (Message.user "hi") = Message.user "hi" ∧
    agent_node_sanitize [Message.system "s", Message.user "u"] =
      [Message.system "s", Message.user "u"] :=
  ⟨agent_node_sanitize_spec.1 [Message.user "q"] (by decide),
   agent_node_sanitize_spec.2.2.2.2.2.2.1 (Message.user "hi") (by decide),
   agent_node_sanitize_spec.2.2.2.2.2.2.2 [Message.system "s", Message.user "u"]
     (by decide) (by decide)⟩

/-- A registered tool: a unique name and the synchronous `run` capability.
`run` models Python `tool.run(tool_input)`: it may raise (`Except.error` with
the exception message), return `None` (`Except.ok none`) or return text. -/
structure Tool where
  name : String
  run : List (String × String) → Except String (Option String)

/-- `execute_tool` (utils.py lines 46-58): run the tool, replace a `None`
result by the no-output sentinel, strip, replace an empty strip result by the
empty-result sentinel, and turn a raised exception into an error string. -/
def execute_tool (tool : Tool) (tool_name : String)
    (tool_input : List (String × String)) : String :=
  match tool.run tool_input with
  | Except.error e => "Error executing tool " ++ tool_name ++ ": " ++ e
  | Except.ok result =>
    let result_content :=
      match result with
      | none => "Tool execution completed with no output"
      | some r => r
    let result_content := pyStrip result_content
    if result_content = "" then "Tool execution completed but returned empty result"
    else result_content

/-- `find_tool_by_name` (utils.py lines 61-63): first tool with a matching
name, if any. -/
def find_tool_by_name (tools : List Tool) (tool_name : String) : Option Tool :=
  tools.find? (fun t => t.name == tool_name)

/-- `process_tool_calls` (utils.py lines 66-84): one `ToolMessage` per
request, in request order, carrying the request's id; an unregistered name
yields the not-found text, a registered tool goes through `execute_tool`. -/
def process_tool_calls (tool_calls : List ToolCallRequest)
    (tools : List Tool) : List Message :=
  tool_calls.map (fun tool_call =>
    let result_content :=
      match find_tool_by_name tools tool_call.name with
      | some tool => execute_tool tool tool_call.name tool_call.args
      | none => "Tool '" ++ tool_call.name ++ "' not found"
    Message.tool result_content tool_call.id)

/-- Modelled from the spec: `process_new_format_tool_calls` is imported by
graph.py from utils.py but is absent from the repository sources. Per §4.3 the
modern dispatch path produces one ToolResult per request, in the same order,
each correlated by id, with the resolution/execution/error rules of the
dispatcher — the contract of `process_tool_calls` in utils.py. -/
def process_new_format_tool_calls (tool_calls : List ToolCallRequest)
    (tools : List Tool) : List Message :=
  process_tool_calls tool_calls tools

/-- The `tool_call_id` attribute, present only on `ToolMessage`. -/
def tool_call_id_of : Message → Option String
  | .tool _ i => some i
  | _ => none

/-- C5: dispatching `N` requests yields exactly `N` ToolResult messages, in
the same relative order, the i-th result's `tool_call_id` equal to the i-th
request's id. -/
theorem process_tool_calls_correlated (tool_calls : List ToolCallRequest)
    (tools : List Tool) :
    (process_tool_calls tool_calls tools).length = tool_calls.length ∧
    (process_tool_calls tool_calls tools).map tool_call_id_of =
      tool_calls.map (fun tc => some tc.id) ∧
    ∀ m ∈ process_tool_calls tool_calls tools, is_tool_response m = true := by
  refine ⟨by simp [process_tool_calls], ?_, ?_⟩
  · simp [process_tool_calls, List.map_map, Function.comp_def, tool_call_id_of]
  · intro m hm
    simp only [process_tool_calls, List.mem_map] at hm
    obtain ⟨tc, _, rfl⟩ := hm
    rfl

/-- Witness for C5 at a single request against an empty registry. -/
theorem process_tool_calls_correlated_witness :
    (process_tool_calls [⟨"1", "t", []⟩] []).map tool_call_id_of = [some "1"] ∧
    is_tool_response (Message.tool "Tool 't' not found" "1") = true :=
  ⟨(process_tool_calls_correlated [⟨"1", "t", []⟩] []).2.1,
   (process_tool_calls_correlated [⟨"1", "t", []⟩] []).2.2
     (Message.tool "Tool 't' not found" "1") (by decide)⟩

/-- C7 (amended): on tool success the result content is the stripped output
when that is non-empty; a `None` output yields the fixed sentinel
"Tool execution completed with no output"; an output that is empty or
whitespace-only yields the fixed sentinel
"Tool execution completed but returned empty result"; and in every case the
content is non-empty. -/
theorem execute_tool_success_spec (tool : Tool) (tool_name : String)
    (tool_input : List (String × String)) (out : Option String)
    (h : tool.run tool_input = Except.ok out) :
    execute_tool tool tool_name tool_input ≠ "" ∧
    (∀ s, out = some s → pyStrip s ≠ "" →
      execute_tool tool tool_name tool_input = pyStrip s) ∧
    (out = none →
      execute_tool tool tool_name tool_input =
        "Tool execution completed with no output") ∧
    (∀ s, out = some s → pyStrip s = "" →
      execute_tool tool tool_name tool_input =
        "Tool execution completed but returned empty result") := by
  cases out with
  | none =>
    have hx : execute_tool tool tool_name tool_input =
        "Tool execution completed with no output" := by
      unfold execute_tool
      rw [h]
      rfl
    refine ⟨?_, ?_, ?_, ?_⟩
    · rw [hx]
      decide
    · intro t ht hne
      simp at ht
    · intro _
      exact hx
    · intro t ht he
      simp at ht
  | some s =>
    have hx : execute_tool tool tool_name tool_input =
        if pyStrip s = "" then "Tool execution completed but returned empty result"
        else pyStrip s := by
      unfold execute_tool
      rw [h]
    refine ⟨?_, ?_, ?_, ?_⟩
    · rw [hx]
      by_cases hs : pyStrip s = ""
      · rw [if_pos hs]
        decide
      · rw [if_neg hs]
        exact hs
    · intro t ht hne
      injection ht with ht2
      subst ht2
      rw [hx, if_neg hne]
    · intro hn
      simp at hn
    · intro t ht he
      injection ht with ht2
      subst ht2
      rw [hx, if_pos he]

/-- A tool whose `run` succeeds with padded output, for the C7 witness. -/
def paddedOutputTool : Tool :=
  ⟨"t", fun _ => Except.ok (some " x ")⟩

/-- Witness for C7: a successful run returning `" x "` gives the stripped,
non-empty content `"x"`. -/
theorem execute_tool_success_spec_witness :
    execute_tool paddedOutputTool "t" [] ≠ "" ∧
    execute_tool paddedOutputTool "t" [] = pyStrip " x " :=
  ⟨(execute_tool_success_spec paddedOutputTool "t" [] (some " x ") rfl).1,
   (execute_tool_success_spec paddedOutputTool "t" [] (some " x ") rfl).2.1
     " x " rfl (by decide)⟩

/-- A tool whose `run` succeeds with whitespace-only output, for the C7
counterexample. -/
def whitespaceOutputTool : Tool :=
  ⟨"t", fun _ => Except.ok (some " ")⟩

/-- C7 counterexample: the output `" "` is a non-empty string, yet the result
content is not the stripped output (which would be empty): the code
substitutes the empty-result sentinel. The claim's non-empty branch therefore
fails on whitespace-only output as literally stated. -/
theorem execute_tool_whitespace_counterexample :
    (" " : String) ≠ "" ∧
    execute_tool whitespaceOutputTool "t" [] ≠ pyStrip " " := by
  refine ⟨by decide, by decide⟩

/-- A configuration option value: a text value or a numeric value. A value of
the wrong kind for a field fails that field's pydantic validation (numeric
strings, which pydantic's lax mode would coerce, are not used by this
repository and are not modelled). -/
inductive CVal where
  | s (v : String)
  | i (v : Int)
deriving DecidableEq, Repr

/-- The `system_message` default of config.py lines 24-30 (a triple-quoted
string with embedded newlines and indentation). -/
def default_system_message : String :=
  "You are a helpful assistant that can search the web and academic papers to answer questions. \n                You can use tools like Brave Search and ArXiv Search to find information. \n                If you need to use a tool, you will call it with the appropriate arguments. \n                If you cannot find an answer, you will say 'I don't know'."

/-- The `Configuration` pydantic model (config.py lines 11-30). The float
`temperature` is carried as an integer — no claim depends on fractional
temperatures, only on a value being valid or invalid. -/
structure Configuration where
  model_name : String
  temperature : Int
  max_tool_calls : Int
  system_message : String
deriving DecidableEq, Repr

/-- `Configuration()` — every field at its declared default. -/
def defaultConfiguration : Configuration :=
  ⟨"gemini-2.5-flash", 0, 5, default_system_message⟩

/-- `Configuration.model_fields.keys()`. -/
def config_fields : List String :=
  ["model_name", "temperature", "max_tool_calls", "system_message"]

/-- Pydantic validation of a str field: accepts a text value only. -/
def validate_str : CVal → Option String
  | .s v => some v
  | _ => none

/-- Pydantic validation of a numeric (float/int) field: accepts a numeric
value only. -/
def validate_num : CVal → Option Int
  | .i v => some v
  | _ => none

/-- One field of `Configuration(**filtered_config)`: absent keyword → declared
default; present keyword → validate, a failure failing the whole constructor
(pydantic `ValidationError`, a `ValueError`). -/
def parseField {α : Type} (configurable : List (String × CVal)) (key : String)
    (validate : CVal → Option α) (dflt : α) : Except Unit α :=
  match (configurable.find? (fun kv => kv.fst == key)).map Prod.snd with
  | none => Except.ok dflt
  | some v =>
    match validate v with
    | some a => Except.ok a
    | none => Except.error ()

/-- `Configuration(**m)`: all four fields validated; any invalid field aborts
construction. -/
def construct_configuration (m : List (String × CVal)) :
    Except Unit Configuration := do
  let mn ← parseField m "model_name" validate_str defaultConfiguration.model_name
  let t ← parseField m "temperature" validate_num defaultConfiguration.temperature
  let mtc ← parseField m "max_tool_calls" validate_num
    defaultConfiguration.max_tool_calls
  let sm ← parseField m "system_message" validate_str
    defaultConfiguration.system_message
  pure ⟨mn, t, mtc, sm⟩

/-- `get_agent_config` (utils.py lines 125-150): filter the `configurable`
mapping to recognized keys, construct the pydantic model, and on a caught
validation error return `Configuration()` — the all-defaults instance. -/
def get_agent_config (configurable : List (String × CVal)) : Configuration :=
  let filtered := configurable.filter (fun kv => config_fields.contains kv.fst)
  match construct_configuration filtered with
  | Except.ok c => c
  | Except.error _ => defaultConfiguration

/-- C8 (amended): unrecognized keys are ignored and loading never raises (the
extraction is a total function); but when any recognized field's value is
invalid, the whole configuration falls back to the all-defaults instance —
other recognized fields with valid supplied values do not keep their supplied
values. Valid supplied values are kept only when every supplied recognized
field validates. -/
theorem get_agent_config_spec :
    (∀ (m : List (String × CVal)) (k : String) (v : CVal),
        config_fields.contains k = false →
        get_agent_config ((k, v) :: m) = get_agent_config m) ∧
    (∀ m : List (String × CVal),
        construct_configuration
            (m.filter (fun kv => config_fields.contains kv.fst)) =
          Except.error () →
        get_agent_config m = defaultConfiguration) ∧
    (∀ (mn : String) (t mtc : Int),
        get_agent_config
            [("model_name", CVal.s mn), ("temperature", CVal.i t),
             ("max_tool_calls", CVal.i mtc)] =
          ⟨mn, t, mtc, defaultConfiguration.system_message⟩) := by
  refine ⟨?_, ?_, ?_⟩
  · intro m k v h
    have h2 : List.filter (fun kv => config_fields.contains kv.fst) ((k, v) :: m) =
        List.filter (fun kv => config_fields.contains kv.fst) m :=
      List.filter_cons_of_neg (by simpa using h)
    simp only [get_agent_config, h2]
  · intro m h
    simp only [get_agent_config, h]
  · intro mn t mtc
    rfl

/-- Witness for C8: an unrecognized key is dropped, and one invalid field
forces the all-defaults configuration. -/
theorem get_agent_config_spec_witness :
    get_agent_config [("extra_field", CVal.s "x")] = get_agent_config [] ∧
    get_agent_config [("temperature", CVal.s "invalid_type")] =
      defaultConfiguration :=
  ⟨get_agent_config_spec.1 [] "extra_field" (CVal.s "x") (by decide),
   get_agent_config_spec.2.1 [("temperature", CVal.s "invalid_type")] rfl⟩

/-- C8 counterexample: with `model_name` validly supplied as `"gemini-pro"`
and `temperature` invalid, the claim says `model_name` keeps its supplied
value, but the code returns `Configuration()` wholesale, so `model_name` is
the default `"gemini-2.5-flash"`. -/
theorem get_agent_config_partial_fallback_counterexample :
    (get_agent_config
        [("model_name", CVal.s "gemini-pro"),
         ("temperature", CVal.s "invalid_type")]).model_name =
      "gemini-2.5-flash" ∧
    ("gemini-2.5-flash" : String) ≠ "gemini-pro" := by
  refine ⟨rfl, by decide⟩

/-- Modelled from the spec: `process_old_format_function_call` is imported by
graph.py from utils.py but is absent from the repository sources. Per §4.3 the
legacy compatibility path accepts one call whose arguments come as an
encoded-text blob: decode the blob into a mapping (the `decode` capability
stands for the JSON decoder), then resolve and execute under the dispatcher's
rules, producing the single equivalent legacy function-result message; a blob
that cannot be decoded raises — `Except.error`, propagated out of the turn,
never converted into a recovered result. -/
def process_old_format_function_call
    (decode : String → Option (List (String × String)))
    (function_call : FunctionCall) (tools : List Tool) : Except String Message :=
  match decode function_call.arguments with
  | none =>
    Except.error ("malformed function_call arguments: " ++ function_call.arguments)
  | some args =>
    let result_content :=
      match find_tool_by_name tools function_call.name with
      | some tool => execute_tool tool function_call.name args
      | none => "Tool '" ++ function_call.name ++ "' not found"
    Except.ok (Message.function result_content function_call.name)

/-- `tools_node` (graph.py lines 89-107): prefer the modern `tool_calls` list
of the last message; fall back to the legacy `function_call` entry; otherwise
return the single error-named `FunctionMessage`. A raised Python exception is
`Except.error` (reading `state["messages"][-1]` of an empty history raises
`IndexError`; a legacy decode failure propagates). -/
def tools_node (decode : String → Option (List (String × String)))
    (tools : List Tool) (messages : List Message) : Except String (List Message) :=
  match messages.getLast? with
  | none => Except.error "IndexError: list index out of range"
  | some last_message =>
    if message_has_tool_calls last_message then
      Except.ok (process_new_format_tool_calls (tool_calls_of last_message) tools)
    else
      match function_call_of last_message with
      | some function_call =>
        (process_old_format_function_call decode function_call tools).map
          (fun m => [m])
      | none => Except.ok [Message.function "No tool calls found" "error"]

/-- The two outcomes of `should_continue`: the `tools_edge` label or `END`. -/
inductive Route where
  | tools_edge
  | end_route
deriving DecidableEq, Repr

/-- `should_continue` (graph.py lines 73-86): the loop-guard check — with the
hardcoded call-site defaults `max_calls = 3`, `look_back = 10`; the
configuration's `max_tool_calls` is never consulted — precedes the tool-call
check on the last message. (The Python code reads `messages[-1]` first; in
the compiled graph the history is never empty at this point.) -/
def should_continue (messages : List Message) : Route :=
  if has_too_many_consecutive_tool_calls messages 3 10 then Route.end_route
  else if (messages.getLast?.map message_has_tool_calls).getD false then
    Route.tools_edge
  else Route.end_route

/-- The loop state of one run of the compiled graph: the accumulated
conversation, the number of model invocations made so far, whether a terminal
edge was taken, and whether a fatal error aborted the run. -/
structure LoopState where
  messages : List Message
  modelCalls : Nat
  done : Bool
  failed : Bool
deriving DecidableEq, Repr

/-- One iteration of the compiled graph starting at `agent_node` (graph.py
lines 110-126): sanitize the state, invoke the model (an external collaborator
passed as a function), append the response; route with `should_continue`; on
`tools_edge` run `tools_node`, append its messages and return to
`agent_node`; on `END` stop. A fatal `tools_node` error aborts the run. -/
def agentStep (decode : String → Option (List (String × String)))
    (toolsReg : List Tool) (model : List Message → Message)
    (st : LoopState) : LoopState :=
  if st.done then st
  else
    let response := model (agent_node_sanitize st.messages)
    let msgs := st.messages ++ [response]
    let calls := st.modelCalls + 1
    match should_continue msgs with
    | Route.end_route =>
      { messages := msgs, modelCalls := calls, done := true, failed := st.failed }
    | Route.tools_edge =>
      match tools_node decode toolsReg msgs with
      | Except.ok results =>
        { messages := msgs ++ results, modelCalls := calls, done := false,
          failed := st.failed }
      | Except.error _ =>
        { messages := msgs, modelCalls := calls, done := true, failed := true }

/-- `k` iterations of the loop. -/
def runLoop (decode : String → Option (List (String × String)))
    (toolsReg : List Tool) (model : List Message → Message) :
    Nat → LoopState → LoopState
  | 0, st => st
  | Nat.succ n, st => runLoop decode toolsReg model n (agentStep decode toolsReg model st)

/-- Entry into the loop with a caller-supplied conversation. -/
def initialState (messages : List Message) : LoopState :=
  ⟨messages, 0, false, false⟩

/-- A terminal state is a fixed point of the step function. -/
theorem agentStep_of_done (decode : String → Option (List (String × String)))
    (toolsReg : List Tool) (model : List Message → Message) (st : LoopState)
    (h : st.done = true) : agentStep decode toolsReg model st = st := by
  simp [agentStep, h]

/-- A terminal state is a fixed point of every further iteration: no more
model calls occur after the loop reaches `DONE`. -/
theorem runLoop_of_done (decode : String → Option (List (String × String)))
    (toolsReg : List Tool) (model : List Message → Message) (st : LoopState)
    (h : st.done = true) : ∀ k, runLoop decode toolsReg model k st = st := by
  intro k
  induction k with
  | zero => rfl
  | succ n ih =>
    show runLoop decode toolsReg model n (agentStep decode toolsReg model st) = st
    rw [agentStep_of_done decode toolsReg model st h]
    exact ih

/-- Every non-terminal iteration makes exactly one model call, whatever route
it then takes. -/
theorem agentStep_modelCalls (decode : String → Option (List (String × String)))
    (toolsReg : List Tool) (model : List Message → Message) (st : LoopState)
    (h : st.done = false) :
    (agentStep decode toolsReg model st).modelCalls = st.modelCalls + 1 := by
  simp only [agentStep, h, Bool.false_eq_true, if_false]
  split
  · rfl
  · split
    · rfl
    · rfl

/-- C1 (amended): once the loop guard reports true over the state extended
with the new model response, `should_continue` returns `END` — the tool-call
check is never reached, so this holds even if that response carries pending
tool-call requests — and the iteration transitions to `DONE` after exactly
this one model call, dispatching nothing; every further iteration is a
no-op, so no further model call is ever made. The claim's global bound of
`maxToolCalls + 1` model calls does not hold (see the counterexample): the
guard scans only the last 10 messages with the hardcoded threshold 3, so
rounds whose dispatches push earlier tool-call turns out of the window keep
the loop running unboundedly, and the configuration's `max_tool_calls` is
never consulted. -/
theorem guard_trip_terminates (decode : String → Option (List (String × String)))
    (toolsReg : List Tool) (model : List Message → Message) (st : LoopState)
    (hdone : st.done = false)
    (hguard : has_too_many_consecutive_tool_calls
        (st.messages ++ [model (agent_node_sanitize st.messages)]) 3 10 = true) :
    should_continue (st.messages ++ [model (agent_node_sanitize st.messages)]) =
      Route.end_route ∧
    agentStep decode toolsReg model st =
      { messages := st.messages ++ [model (agent_node_sanitize st.messages)],
        modelCalls := st.modelCalls + 1, done := true, failed := st.failed } ∧
    ∀ k, runLoop decode toolsReg model k (agentStep decode toolsReg model st) =
      agentStep decode toolsReg model st := by
  have hroute : should_continue
      (st.messages ++ [model (agent_node_sanitize st.messages)]) =
        Route.end_route := by
    simp [should_continue, hguard]
  have heq : agentStep decode toolsReg model st =
      { messages := st.messages ++ [model (agent_node_sanitize st.messages)],
        modelCalls := st.modelCalls + 1, done := true, failed := st.failed } := by
    simp [agentStep, hdone, hroute]
  refine ⟨hroute, heq, ?_⟩
  intro k
  rw [heq]
  exact runLoop_of_done decode toolsReg model _ rfl k

/-- A decoder that always fails; the modern-format runs below never reach it. -/
def noDecode : String → Option (List (String × String)) := fun _ => none

/-- A model that answers every prompt with a single tool-call request. -/
def oneCallModel : List Message → Message :=
  fun _ => Message.assistant "c" [⟨"9", "t", []⟩] none

/-- A state in which two tool-call rounds have already happened, so the next
tool-calling response trips the guard. -/
def guardTripState : LoopState :=
  ⟨[Message.user "q",
    Message.assistant "c" [⟨"1", "t", []⟩] none, Message.tool "r" "1",
    Message.assistant "c" [⟨"2", "t", []⟩] none, Message.tool "r" "2"],
   2, false, false⟩

/-- Witness for C1 (amended) at a concrete tripping state: the step appends
only the response — whose pending tool call is never dispatched — and ends. -/
theorem guard_trip_terminates_witness :
    agentStep noDecode [] oneCallModel guardTripState =
      { messages := guardTripState.messages ++
          [oneCallModel (agent_node_sanitize guardTripState.messages)],
        modelCalls := 3, done := true, failed := false } :=
  (guard_trip_terminates noDecode [] oneCallModel guardTripState rfl
    (by decide)).2.1

/-- A model that answers every prompt with four tool-call requests: each round
then appends five messages, so the ten-message guard window never holds three
tool-call turns. -/
def fourCallModel : List Message → Message :=
  fun _ => Message.assistant "c"
    [⟨"1", "t", []⟩, ⟨"2", "t", []⟩, ⟨"3", "t", []⟩, ⟨"4", "t", []⟩] none

/-- C1 counterexample: with the default configuration (`max_tool_calls = 5`)
and a model that requests four tool calls per round, seven loop iterations
make seven model calls — more than `maxToolCalls + 1 = 6` — and the loop is
still not `DONE`: the guard never trips because each dispatch round pushes the
previous tool-call turn out of the ten-message window. -/
theorem loop_exceeds_bound_counterexample :
    defaultConfiguration.max_tool_calls + 1 <
      ((runLoop noDecode [] fourCallModel 7
          (initialState [Message.user "q"])).modelCalls : Int) ∧
    (runLoop noDecode [] fourCallModel 7
        (initialState [Message.user "q"])).done = false := by
  refine ⟨by decide, by decide⟩

/-- C6: tool-not-found and tool execution failure never raise out of the
dispatcher — the first yields a ToolResult whose content is
`Tool '<name>' not found`, the second one whose content is
`Error executing tool <name>: <message>` — and after a dispatch round the
iteration is not terminal, so the next iteration makes another model call. -/
theorem tool_failures_recovered :
    (∀ (toolsReg : List Tool) (tc : ToolCallRequest),
        find_tool_by_name toolsReg tc.name = none →
        process_tool_calls [tc] toolsReg =
          [Message.tool ("Tool '" ++ tc.name ++ "' not found") tc.id]) ∧
    (∀ (tool : Tool) (tool_name : String) (tool_input : List (String × String))
        (e : String),
        tool.run tool_input = Except.error e →
        execute_tool tool tool_name tool_input =
          "Error executing tool " ++ tool_name ++ ": " ++ e) ∧
    (∀ (decode : String → Option (List (String × String))) (toolsReg : List Tool)
        (model : List Message → Message) (st : LoopState),
        st.done = false →
        should_continue (st.messages ++ [model (agent_node_sanitize st.messages)]) =
          Route.tools_edge →
        ∀ results,
          tools_node decode toolsReg
              (st.messages ++ [model (agent_node_sanitize st.messages)]) =
            Except.ok results →
          (agentStep decode toolsReg model st).done = false ∧
          (agentStep decode toolsReg model (agentStep decode toolsReg model st)).modelCalls =
            st.modelCalls + 2) := by
  refine ⟨?_, ?_, ?_⟩
  · intro toolsReg tc h
    simp [process_tool_calls, h]
  · intro tool tool_name tool_input e h
    simp [execute_tool, h]
  · intro decode toolsReg model st hdone hroute results htools
    have heq : agentStep decode toolsReg model st =
        { messages := (st.messages ++ [model (agent_node_sanitize st.messages)]) ++
            results,
          modelCalls := st.modelCalls + 1, done := false, failed := st.failed } := by
      simp [agentStep, hdone, hroute, htools]
    refine ⟨by rw [heq], ?_⟩
    rw [agentStep_modelCalls decode toolsReg model (agentStep decode toolsReg model st)
      (by rw [heq]), agentStep_modelCalls decode toolsReg model st hdone]

/-- A tool whose execution raises, for the C6 witness. -/
def raisingTool : Tool :=
  ⟨"t", fun _ => Except.error "boom"⟩

/-- Witness for C6: an unregistered name is answered with the not-found
ToolResult, a raising tool with the error ToolResult, and after a dispatch
round the loop is not terminal and the following iteration calls the model
again. -/
theorem tool_failures_recovered_witness :
    process_tool_calls [⟨"1", "t", []⟩] [] =
      [Message.tool "Tool 't' not found" "1"] ∧
    execute_tool raisingTool "t" [] = "Error executing tool t: boom" ∧
    (agentStep noDecode [] oneCallModel (initialState [Message.user "q"])).done =
      false ∧
    (agentStep noDecode [] oneCallModel
        (agentStep noDecode [] oneCallModel
          (initialState [Message.user "q"]))).modelCalls = 2 :=
  ⟨tool_failures_recovered.1 [] ⟨"1", "t", []⟩ rfl,
   tool_failures_recovered.2.1 raisingTool "t" [] "boom" rfl,
   (tool_failures_recovered.2.2 noDecode [] oneCallModel
      (initialState [Message.user "q"]) rfl (by decide)
      (process_tool_calls [⟨"9", "t", []⟩] []) rfl).1,
   (tool_failures_recovered.2.2 noDecode [] oneCallModel
      (initialState [Message.user "q"]) rfl (by decide)
      (process_tool_calls [⟨"9", "t", []⟩] []) rfl).2⟩

/-- C9: the dispatcher accepts the legacy single-function-call shape: when the
argument blob decodes, it produces a single legacy result message whose
content is exactly what the modern dispatcher would produce for the equivalent
structured request; when the blob cannot be decoded, the error propagates
(`Except.error`) instead of becoming a recovered ToolResult; and `tools_node`
routes a last message bearing only a legacy `function_call` through this path. -/
theorem legacy_function_call_spec :
    (∀ (decode : String → Option (List (String × String))) (fc : FunctionCall)
        (toolsReg : List Tool) (args : List (String × String)),
        decode fc.arguments = some args →
        ∃ c, process_old_format_function_call decode fc toolsReg =
            Except.ok (Message.function c fc.name) ∧
          ∀ i, process_tool_calls [⟨i, fc.name, args⟩] toolsReg =
            [Message.tool c i]) ∧
    (∀ (decode : String → Option (List (String × String))) (fc : FunctionCall)
        (toolsReg : List Tool),
        decode fc.arguments = none →
        ∃ e, process_old_format_function_call decode fc toolsReg =
          Except.error e) ∧
    (∀ (decode : String → Option (List (String × String))) (toolsReg : List Tool)
        (messages : List Message) (last : Message) (fc : FunctionCall),
        messages.getLast? = some last →
        message_has_tool_calls last = false →
        function_call_of last = some fc →
        tools_node decode toolsReg messages =
          (process_old_format_function_call decode fc toolsReg).map
            (fun m => [m])) := by
  refine ⟨?_, ?_, ?_⟩
  · intro decode fc toolsReg args h
    refine ⟨match find_tool_by_name toolsReg fc.name with
            | some tool => execute_tool tool fc.name args
            | none => "Tool '" ++ fc.name ++ "' not found", ?_, ?_⟩
    · simp only [process_old_format_function_call, h]
    · intro i
      rfl
  · intro decode fc toolsReg h
    exact ⟨"malformed function_call arguments: " ++ fc.arguments,
      by simp only [process_old_format_function_call, h]⟩
  · intro decode toolsReg messages last fc h1 h2 h3
    simp [tools_node, h1, h2, h3]

/-- Witness for C9: a decodable blob dispatches against the empty registry
and matches the modern path; an undecodable blob propagates an error;
`tools_node` takes the legacy path on a `function_call`-only last message. -/
theorem legacy_function_call_spec_witness :
    (∃ c, process_old_format_function_call (fun _ => some []) ⟨"t", "blob"⟩ [] =
        Except.ok (Message.function c "t") ∧
      ∀ i, process_tool_calls [⟨i, "t", []⟩] [] = [Message.tool c i]) ∧
    (∃ e, process_old_format_function_call (fun _ => none) ⟨"t", "blob"⟩ [] =
      Except.error e) ∧
    tools_node (fun _ => none) []
        [Message.assistant "c" [] (some ⟨"t", "blob"⟩)] =
      (process_old_format_function_call (fun _ => none) ⟨"t", "blob"⟩ []).map
        (fun m => [m]) :=
  ⟨legacy_function_call_spec.1 (fun _ => some []) ⟨"t", "blob"⟩ [] [] rfl,
   legacy_function_call_spec.2.1 (fun _ => none) ⟨"t", "blob"⟩ [] rfl,
   legacy_function_call_spec.2.2 (fun _ => none) []
     [Message.assistant "c" [] (some ⟨"t", "blob"⟩)]
     (Message.assistant "c" [] (some ⟨"t", "blob"⟩)) ⟨"t", "blob"⟩ rfl rfl rfl⟩

/-- C10: when the last message carries neither a modern `tool_calls` list nor
a legacy `function_call`, `tools_node` does not raise: it returns exactly one
message, a `FunctionMessage` named "error" with content "No tool calls found",
to be appended to the conversation. -/
theorem tools_node_no_tool_calls (decode : String → Option (List (String × String)))
    (toolsReg : List Tool) (messages : List Message) (last : Message)
    (h1 : messages.getLast? = some last)
    (h2 : message_has_tool_calls last = false)
    (h3 : function_call_of last = none) :
    tools_node decode toolsReg messages =
      Except.ok [Message.function "No tool calls found" "error"] := by
  simp [tools_node, h1, h2, h3]

/-- Witness for C10 at the one-message history `[User("q")]`. -/
theorem tools_node_no_tool_calls_witness :
    tools_node noDecode [] [Message.user "q"] =
      Except.ok [Message.function "No tool calls found" "error"] :=
  tools_node_no_tool_calls noDecode [] [Message.user "q"] (Message.user "q")
    rfl rfl rfl

end Agent
